import Mathlib

/-!
Shallow embedding of `lib/rucio/daemons/abacus/collection_replica.py`
(the Abacus-Collection-Replica daemon of rucio), together with theorems
settling the specification's claims about it.

The embedding keeps the Python names.  External collaborators
(`heartbeat_handler.live`, `get_cleaned_updated_collection_replicas`,
`update_collection_replica`, `graceful_stop.is_set`) are modelled as an
environment of functions; exceptions they may raise are modelled with
`Except`.  Logging is modelled only where a claim mentions it (the
"did not get any work" informational log becomes a boolean field of the
cycle outcome).
-/

namespace CollectionReplica

/-- A collection replica work item (a row returned by
`get_cleaned_updated_collection_replicas`).  The daemon treats it as an
opaque record; only its `id` field is read (for a debug log line). -/
structure WorkItem where
  id : Nat
deriving DecidableEq

/-- A Python exception raised by an external call, identified by its message. -/
structure Exc where
  msg : String
deriving DecidableEq

/-- The environment of external collaborators consumed by `run_once`.

* `live k` is the pair `(worker_number, total_workers)` returned by the
  `k`-th call of `heartbeat_handler.live()` in the cycle (the third
  returned value, the logger, is not data-relevant);
* `get_cleaned_updated_collection_replicas tw wn lim` is the batch (or
  exception) produced by the work source for keyword arguments
  `total_workers=tw, worker_number=wn, limit=lim`;
* `update_collection_replica r` is the work applier's outcome on `r`;
* `graceful_stop_is_set k` is the value `graceful_stop.is_set()` returns
  at the `k`-th check of the processing loop. -/
structure Env where
  live : Nat → Int × Int
  get_cleaned_updated_collection_replicas : Int → Int → Int → Except Exc (List WorkItem)
  update_collection_replica : WorkItem → Except Exc Unit
  graceful_stop_is_set : Nat → Bool

/-- Observable outcome of a `run_once` call that returned normally. -/
structure CycleOutcome where
  /-- The `(total_workers, worker_number, limit)` arguments passed to
  `get_cleaned_updated_collection_replicas`. -/
  fetch_args : Int × Int × Int
  /-- Whether the `logger(logging.INFO, 'did not get any work')` line ran. -/
  logged_no_work : Bool
  /-- Items on which `update_collection_replica` was called and returned
  normally, in call order. -/
  applied : List WorkItem
  /-- The returned `must_sleep` boolean. -/
  must_sleep : Bool
deriving DecidableEq

/-- Result of a `run_once` call: a normal return, or an exception `e`
propagating out of the cycle with `applied` the items already updated
successfully before `e` was raised (side effects are not undone). -/
inductive RunOnceResult where
  | ok (out : CycleOutcome)
  | raised (e : Exc) (applied : List WorkItem)
deriving DecidableEq

/-- The `for replica in replicas:` loop of `run_once`:

```python
for replica in replicas:
    worker_number, total_workers, logger = heartbeat_handler.live()
    if graceful_stop.is_set():
        break
    start_time = time.time()
    update_collection_replica(replica)
    logger(logging.DEBUG, ...)
```

`i` is the index of the current `graceful_stop.is_set()` check (one per
iteration entered, starting at 0).  The per-iteration `live()` call only
rebinds variables used for logging, so it is not tracked.  Returns the
items applied successfully, and the exception raised by
`update_collection_replica` if one was (it propagates: there is no
enclosing `try`). -/
def process_replicas (env : Env) : Nat → List WorkItem → List WorkItem × Option Exc
  | _, [] => ([], none)
  | i, replica :: rest =>
    if env.graceful_stop_is_set i then
      ([], none)
    else
      match env.update_collection_replica replica with
      | .error e => ([], some e)
      | .ok () =>
        let res := process_replicas env (i + 1) rest
        (replica :: res.1, res.2)

/-- `run_once(heartbeat_handler, limit, **_kwargs)`:

```python
worker_number, total_workers, logger = heartbeat_handler.live()
replicas = get_cleaned_updated_collection_replicas(total_workers=total_workers - 1,
                                                   worker_number=worker_number,
                                                   limit=limit)
logger(logging.DEBUG, ...)
if not replicas:
    logger(logging.INFO, 'did not get any work')
    must_sleep = True
    return must_sleep
for replica in replicas:
    ...  # process_replicas
must_sleep = False
if limit and len(replicas) < limit:
    must_sleep = True
return must_sleep
```

Python truthiness: `if limit` is `limit ≠ 0`; `if not replicas` is
`replicas.isEmpty`. -/
def run_once (env : Env) (limit : Int) : RunOnceResult :=
  match env.get_cleaned_updated_collection_replicas
      ((env.live 0).2 - 1) (env.live 0).1 limit with
  | .error e => .raised e []
  | .ok replicas =>
    if replicas.isEmpty then
      .ok { fetch_args := ((env.live 0).2 - 1, (env.live 0).1, limit)
            logged_no_work := true
            applied := []
            must_sleep := true }
    else
      match process_replicas env 0 replicas with
      | (applied, some e) => .raised e applied
      | (applied, none) =>
        .ok { fetch_args := ((env.live 0).2 - 1, (env.live 0).1, limit)
              logged_no_work := false
              applied := applied
              must_sleep := decide (limit ≠ 0) && decide ((replicas.length : Int) < limit) }

/-- The `run_daemon(...)` invocation built by `collection_replica_update`:
its `once`, `partition_wait_time` and `sleep_time` arguments, and the
`limit` bound into `run_once_fnc = functools.partial(run_once, limit=limit)`. -/
structure RunDaemonCall where
  once : Bool
  partition_wait_time : Int
  sleep_time : Int
  run_once_limit : Int
deriving DecidableEq

/-- `collection_replica_update(once=False, limit=1000, sleep_time=10)`:
the daemon loop entry point; it forwards its arguments to `run_daemon`,
binding `limit` into the partial application of `run_once`.  Default
argument values are the Python defaults. -/
def collection_replica_update (once : Bool := false) (limit : Int := 1000)
    (sleep_time : Int := 10) : RunDaemonCall :=
  { once := once
    partition_wait_time := 1
    sleep_time := sleep_time
    run_once_limit := limit }

/-- What a call of `run` does, observably, after the schema check. -/
inductive RunResult where
  /-- `raise exception.DatabaseException(...)`: raised before any daemon
  loop is started, any work source fetch, or any work applier call. -/
  | raisedDatabaseException (msg : String)
  /-- `once` branch: `collection_replica_update(once)` executed
  synchronously in the calling thread; no thread is spawned. -/
  | syncLoop (call : RunDaemonCall)
  /-- `else` branch with an empty `thread_list`: the threads (none) are
  started, then `while thread_list[0].is_alive()` raises `IndexError`. -/
  | spawnedThenIndexError (thread_list : List RunDaemonCall)
  /-- `else` branch: every thread of `thread_list` is started, then the
  driver enters `while thread_list[0].is_alive(): [t.join(timeout=3.14)
  for t in thread_list]` (modelled by `join_wait`). -/
  | spawnedAndWaiting (thread_list : List RunDaemonCall)
deriving DecidableEq

/-- `run(once=False, threads=1, sleep_time=10, limit=1000)`:

```python
setup_logging(process_name=DAEMON_NAME)
if rucio.db.sqla.util.is_old_db():
    raise exception.DatabaseException('Database was not updated, daemon won\'t start')
if once:
    logging.info('main: executing one iteration only')
    collection_replica_update(once)
else:
    logging.info('main: starting threads')
    thread_list = [threading.Thread(target=collection_replica_update,
                                    kwargs={'once': once, 'sleep_time': sleep_time, 'limit': limit})
                   for _ in range(0, threads)]
    [t.start() for t in thread_list]
    logging.info('main: waiting for interrupts')
    while thread_list[0].is_alive():
        [t.join(timeout=3.14) for t in thread_list]
```

`is_old_db` is the result of `rucio.db.sqla.util.is_old_db()`.  In the
`once` branch `collection_replica_update(once)` passes only `once`
positionally, so `limit` and `sleep_time` take their defaults. -/
def run (is_old_db : Bool) (once : Bool := false) (threads : Nat := 1)
    (sleep_time : Int := 10) (limit : Int := 1000) : RunResult :=
  if is_old_db then
    .raisedDatabaseException "Database was not updated, daemon won\'t start"
  else if once then
    .syncLoop (collection_replica_update once)
  else
    let thread_list := (List.range threads).map
      (fun _ => collection_replica_update once limit sleep_time)
    if thread_list.isEmpty then
      .spawnedThenIndexError thread_list
    else
      .spawnedAndWaiting thread_list

/-- The wait loop `while thread_list[0].is_alive(): [t.join(timeout=3.14)
for t in thread_list]`, abstracted over discrete poll iterations:
`alive i t` is what `thread_list[i].is_alive()` would return at iteration
`t`.  `join_wait alive fuel t` is the iteration at which the loop exits
(and `run` returns), if it does so within `fuel` iterations starting from
iteration `t`.  The `join` calls in the body only bound how long an
iteration takes; they do not change which threads the exit condition
inspects. -/
def join_wait (alive : Nat → Nat → Bool) : Nat → Nat → Option Nat
  | 0, _ => none
  | fuel + 1, t => if alive 0 t then join_wait alive fuel (t + 1) else some t

/-- Number of loop iterations `process_replicas` runs to completion before
breaking, over a list of length `n` with stop checks starting at index `i`:
the position of the first set check, capped at `n`. -/
def first_set (stop : Nat → Bool) (i : Nat) : Nat → Nat
  | 0 => 0
  | n + 1 => if stop i then 0 else first_set stop (i + 1) n + 1

/-- The `must_sleep` value a `run_once` result returned, when it returned
one (an exception propagating out of the cycle returns nothing). -/
def returned_must_sleep : RunOnceResult → Option Bool
  | .ok out => some out.must_sleep
  | .raised _ _ => none

/-- The `(total_workers, worker_number, limit)` arguments of the cycle's
fetch, read off a normal `run_once` result. -/
def returned_fetch_args : RunOnceResult → Option (Int × Int × Int)
  | .ok out => some out.fetch_args
  | .raised _ _ => none

/-- The items `update_collection_replica` was called on and handled
successfully during the cycle, in call order (also defined when an
exception ended the cycle: side effects are not undone). -/
def returned_applied : RunOnceResult → List WorkItem
  | .ok out => out.applied
  | .raised _ applied => applied

/-- Whether the "did not get any work" informational line was logged. -/
def returned_logged_no_work : RunOnceResult → Option Bool
  | .ok out => some out.logged_no_work
  | .raised _ _ => none

/-! ### Helper lemmas about the processing loop -/

theorem first_set_congr (stop stop2 : Nat → Bool) (h : ∀ k, stop k = stop2 k) :
    ∀ (n i : Nat), first_set stop i n = first_set stop2 i n := by
  intro n
  induction n with
  | zero => intro i; rfl
  | succ n ih => intro i; simp only [first_set, h i, ih (i + 1)]

theorem first_set_le_of_set (stop : Nat → Bool) :
    ∀ (n i j : Nat), i ≤ j → stop j = true → first_set stop i n ≤ j - i := by
  intro n
  induction n with
  | zero => intro i j _ _; exact Nat.zero_le _
  | succ n ih =>
    intro i j hij hj
    simp only [first_set]
    by_cases hi : stop i
    · simp [hi]
    · rw [Bool.not_eq_true] at hi
      simp only [hi, Bool.false_eq_true, if_false]
      have hne : i ≠ j := fun he => by rw [he, hj] at hi; cases hi
      have hij2 : i + 1 ≤ j := Nat.lt_of_le_of_ne hij hne
      have := ih (i + 1) j hij2 hj
      omega

theorem process_replicas_no_error (env : Env)
    (hupd : ∀ r, env.update_collection_replica r = Except.ok ())
    (rs : List WorkItem) : ∀ (i : Nat),
    process_replicas env i rs =
      (rs.take (first_set env.graceful_stop_is_set i rs.length), none) := by
  induction rs with
  | nil => intro i; rfl
  | cons replica rest ih =>
    intro i
    simp only [process_replicas, List.length_cons, first_set]
    by_cases h : env.graceful_stop_is_set i
    · simp [h]
    · simp [h, hupd replica, ih (i + 1)]

theorem process_replicas_raises (env : Env) :
    ∀ (rs : List WorkItem) (i0 i : Nat) (e : Exc) (hi : i < rs.length),
      (∀ j, j < i → env.graceful_stop_is_set (i0 + j) = false) →
      (∀ r, r ∈ rs.take i → env.update_collection_replica r = Except.ok ()) →
      env.graceful_stop_is_set (i0 + i) = false →
      env.update_collection_replica (rs.get ⟨i, hi⟩) = Except.error e →
      process_replicas env i0 rs = (rs.take i, some e) := by
  intro rs
  induction rs with
  | nil => intro i0 i e hi; exact absurd hi (Nat.not_lt_zero i)
  | cons replica rest ih =>
    intro i0 i e hi hstops hupds hstop hupd
    match i with
    | 0 =>
      have h0 : env.graceful_stop_is_set i0 = false := by simpa using hstop
      have hu : env.update_collection_replica replica = Except.error e := by
        simpa using hupd
      simp [process_replicas, h0, hu]
    | k + 1 =>
      have h0 : env.graceful_stop_is_set i0 = false := by
        simpa using hstops 0 (Nat.succ_pos k)
      have hu : env.update_collection_replica replica = Except.ok () :=
        hupds replica (by simp)
      have hrec := ih (i0 + 1) k e (Nat.lt_of_succ_lt_succ hi)
        (fun j hj => by
          have := hstops (j + 1) (Nat.succ_lt_succ hj)
          simpa [Nat.add_assoc, Nat.add_comm 1 j] using this)
        (fun r hr => hupds r (by simp [List.take_succ_cons]; exact Or.inr hr))
        (by
          have := hstop
          simpa [Nat.add_assoc, Nat.add_comm 1 k] using this)
        (by simpa using hupd)
      simp [process_replicas, h0, hu, hrec, List.take_succ_cons]

/-- `run_once` when the fetch succeeds and every update succeeds: the
fetched list is processed up to the first set stop check. -/
theorem run_once_no_exception (env : Env) (limit : Int) (rs : List WorkItem)
    (hfetch : env.get_cleaned_updated_collection_replicas
        ((env.live 0).2 - 1) (env.live 0).1 limit = Except.ok rs)
    (hupd : ∀ r, env.update_collection_replica r = Except.ok ()) :
    run_once env limit =
      if rs.isEmpty then
        .ok { fetch_args := ((env.live 0).2 - 1, (env.live 0).1, limit)
              logged_no_work := true
              applied := []
              must_sleep := true }
      else
        .ok { fetch_args := ((env.live 0).2 - 1, (env.live 0).1, limit)
              logged_no_work := false
              applied := rs.take (first_set env.graceful_stop_is_set 0 rs.length)
              must_sleep := decide (limit ≠ 0) && decide ((rs.length : Int) < limit) } := by
  simp only [run_once, hfetch]
  by_cases h : rs.isEmpty
  · simp [h]
  · simp [h, process_replicas_no_error env hupd rs 0]

/-! ### Concrete environments for witnesses and counterexamples -/

/-- One worker (worker 0 of 1), empty backlog, applier always succeeds,
stop signal never set. -/
def envEmpty : Env :=
  { live := fun _ => (0, 1)
    get_cleaned_updated_collection_replicas := fun _ _ _ => Except.ok []
    update_collection_replica := fun _ => Except.ok ()
    graceful_stop_is_set := fun _ => false }

/-- Worker 0 of a fleet whose heartbeat reports `total_workers = 5`;
empty backlog. -/
def envTW5 : Env :=
  { live := fun _ => (0, 5)
    get_cleaned_updated_collection_replicas := fun _ _ _ => Except.ok []
    update_collection_replica := fun _ => Except.ok ()
    graceful_stop_is_set := fun _ => false }

/-- A batch of three items, everything succeeds, stop never set. -/
def envBatch3 : Env :=
  { live := fun _ => (0, 1)
    get_cleaned_updated_collection_replicas :=
      fun _ _ _ => Except.ok [{ id := 1 }, { id := 2 }, { id := 3 }]
    update_collection_replica := fun _ => Except.ok ()
    graceful_stop_is_set := fun _ => false }

/-- The spec's end-to-end scenario C: ten fetched items, the stop signal
observed set from the fourth check on (i.e. set after the third item was
applied). -/
def envStop10 : Env :=
  { live := fun _ => (0, 2)
    get_cleaned_updated_collection_replicas :=
      fun _ _ _ => Except.ok ((List.range 10).map (fun n => { id := n }))
    update_collection_replica := fun _ => Except.ok ()
    graceful_stop_is_set := fun i => decide (3 ≤ i) }

/-- Three items where updating the second raises; stop never set. -/
def envFail : Env :=
  { live := fun _ => (0, 1)
    get_cleaned_updated_collection_replicas :=
      fun _ _ _ => Except.ok [{ id := 0 }, { id := 1 }, { id := 2 }]
    update_collection_replica :=
      fun r => if r.id = 1 then Except.error { msg := "boom" } else Except.ok ()
    graceful_stop_is_set := fun _ => false }

/-- An environment whose fetch itself raises. -/
def envFetchFail : Env :=
  { live := fun _ => (0, 1)
    get_cleaned_updated_collection_replicas :=
      fun _ _ _ => Except.error { msg := "db down" }
    update_collection_replica := fun _ => Except.ok ()
    graceful_stop_is_set := fun _ => false }

/-- Thread-liveness trace for the wait loop of `run`: the first spawned
thread has already terminated before the first poll, the second is still
alive at every poll. -/
def aliveFirstDead : Nat → Nat → Bool :=
  fun i _ => decide (i ≠ 0)

/-! ### Claim C1 -/

/-- C1, corrected at `limit ≤ 0` with an empty batch: with `limit = 0`
and a work source returning zero items, `run_once` returns
`must_sleep = true`, while the claim demands `must_sleep = false` for
every batch size when `limit ≤ 0`. -/
theorem C1_counterexample :
    (0 : Int) ≤ 0 ∧
    returned_must_sleep (run_once envEmpty 0) = some true ∧
    returned_must_sleep (run_once envEmpty 0) ≠ some false := by
  decide

/-- C1 (amended): when the fetch returns batch `rs` and every update
succeeds, `must_sleep = (rs.length < limit)` for every `limit > 0`;
for `limit ≤ 0`, `must_sleep` is false whenever the batch is non-empty,
but an empty batch returns `must_sleep = true` regardless of `limit`
(the empty-batch branch returns before the limit heuristic runs). -/
theorem C1_must_sleep (env : Env) (limit : Int) (rs : List WorkItem)
    (hfetch : env.get_cleaned_updated_collection_replicas
        ((env.live 0).2 - 1) (env.live 0).1 limit = Except.ok rs)
    (hupd : ∀ r, env.update_collection_replica r = Except.ok ()) :
    (0 < limit →
      returned_must_sleep (run_once env limit) = some (decide ((rs.length : Int) < limit))) ∧
    (limit ≤ 0 → rs ≠ [] → returned_must_sleep (run_once env limit) = some false) ∧
    (rs = [] → returned_must_sleep (run_once env limit) = some true) := by
  rw [run_once_no_exception env limit rs hfetch hupd]
  cases rs with
  | nil =>
    refine ⟨fun hpos => ?_, fun _ hne => absurd rfl hne, fun _ => rfl⟩
    simp [returned_must_sleep, hpos]
  | cons a l =>
    simp only [List.isEmpty_cons, Bool.false_eq_true, if_false, returned_must_sleep,
      Option.some.injEq]
    refine ⟨fun hpos => ?_, fun hnonpos _ => ?_, fun he => by cases he⟩
    · simp [Int.ne_of_gt hpos]
    · rcases eq_or_lt_of_le hnonpos with h0 | hneg
      · simp [h0]
      · have hlt : ¬ (((a :: l).length : Int) < limit) := by
          have h2 : (0 : Int) ≤ (((a :: l).length : Nat) : Int) := Int.natCast_nonneg _
          omega
        rw [decide_eq_false hlt, Bool.and_false]

/-- Witness for the amended C1 at a concrete input: three items fetched
with `limit = 1000` and `must_sleep = true` returned (a partial batch). -/
theorem C1_witness :
    returned_must_sleep (run_once envBatch3 1000) = some true :=
  ((C1_must_sleep envBatch3 1000 [{ id := 1 }, { id := 2 }, { id := 3 }] rfl
    (fun _ => rfl)).1 (by decide)).trans (by decide)

/-! ### Claim C2 -/

/-- C2, corrected: with `heartbeat_handler.live()` reporting
`(worker_number, total_workers) = (0, 5)`, the fetch is issued with
`total_workers = 4`, not the `5` the heartbeat returned, so the claim's
equality between the fetch argument and the heartbeat value fails. -/
theorem C2_counterexample :
    (envTW5.live 0).2 = 5 ∧
    returned_fetch_args (run_once envTW5 1000) = some (4, 0, 1000) ∧
    returned_fetch_args (run_once envTW5 1000) ≠
      some ((envTW5.live 0).2, (envTW5.live 0).1, 1000) := by
  decide

/-- C2 (amended): the fetch of every cycle carries the `worker_number`
returned by the cycle's first `heartbeat_handler.live()` call and the
configured `limit` unchanged, but its `total_workers` argument is the
heartbeat's `total_workers` minus one. -/
theorem C2_fetch_args (env : Env) (limit : Int) (out : CycleOutcome)
    (h : run_once env limit = RunOnceResult.ok out) :
    out.fetch_args = ((env.live 0).2 - 1, (env.live 0).1, limit) := by
  unfold run_once at h
  cases hf : env.get_cleaned_updated_collection_replicas
      ((env.live 0).2 - 1) (env.live 0).1 limit with
  | error e => rw [hf] at h; cases h
  | ok replicas =>
    rw [hf] at h
    simp only [] at h
    by_cases he : replicas.isEmpty
    · rw [if_pos he] at h
      cases h
      rfl
    · rw [if_neg he] at h
      cases hp : process_replicas env 0 replicas with
      | mk applied err =>
        rw [hp] at h
        cases err with
        | some e => cases h
        | none => cases h; rfl

/-- The outcome `run_once envTW5 1000` returns. -/
def outTW5 : CycleOutcome :=
  { fetch_args := (4, 0, 1000)
    logged_no_work := true
    applied := []
    must_sleep := true }

/-- Witness for the amended C2 at a concrete input. -/
theorem C2_witness :
    outTW5.fetch_args = ((envTW5.live 0).2 - 1, (envTW5.live 0).1, 1000) :=
  C2_fetch_args envTW5 1000 outTW5 (by decide)

/-! ### Claim C3 -/

/-- C3: cooperative stop.  With every update succeeding, the items
applied in a cycle are exactly the fetched items before the first set
stop check — a prefix of the batch in fetched order, each item applied
once and none undone; once the stop check at position `i` reads true, no
more than `i` items are applied in the cycle; and in the spec's scenario
C (signal observed set from the fourth check on, ten fetched items)
exactly the first three items are applied. -/
theorem C3_cooperative_stop (env : Env) (limit : Int) (rs : List WorkItem)
    (hfetch : env.get_cleaned_updated_collection_replicas
        ((env.live 0).2 - 1) (env.live 0).1 limit = Except.ok rs)
    (hupd : ∀ r, env.update_collection_replica r = Except.ok ()) :
    returned_applied (run_once env limit) =
      rs.take (first_set env.graceful_stop_is_set 0 rs.length) ∧
    returned_applied (run_once env limit) <+: rs ∧
    (∀ i, env.graceful_stop_is_set i = true →
      (returned_applied (run_once env limit)).length ≤ i) ∧
    ((∀ i, env.graceful_stop_is_set i = decide (3 ≤ i)) → rs.length = 10 →
      returned_applied (run_once env limit) = rs.take 3) := by
  have hkey : returned_applied (run_once env limit) =
      rs.take (first_set env.graceful_stop_is_set 0 rs.length) := by
    rw [run_once_no_exception env limit rs hfetch hupd]
    cases rs with
    | nil => simp [returned_applied]
    | cons a l => simp [returned_applied]
  refine ⟨hkey, ?_, ?_, ?_⟩
  · rw [hkey]
    exact ⟨rs.drop _, List.take_append_drop _ rs⟩
  · intro i hi
    rw [hkey]
    have h1 : first_set env.graceful_stop_is_set 0 rs.length ≤ i := by
      have := first_set_le_of_set env.graceful_stop_is_set rs.length 0 i
        (Nat.zero_le i) hi
      simpa using this
    have h2 : (rs.take (first_set env.graceful_stop_is_set 0 rs.length)).length ≤
        first_set env.graceful_stop_is_set 0 rs.length := by
      rw [List.length_take]
      exact min_le_left _ _
    exact le_trans h2 h1
  · intro hstop hlen
    rw [hkey, first_set_congr env.graceful_stop_is_set (fun k => decide (3 ≤ k))
      hstop rs.length 0, hlen]
    have h3 : first_set (fun k => decide (3 ≤ k)) 0 10 = 3 := by decide
    rw [h3]

/-- Witness for C3: scenario C concretely — ten items `id 0..9`, stop
signal set after the third item: exactly `id 0, 1, 2` applied in order. -/
theorem C3_witness :
    returned_applied (run_once envStop10 1000) =
      [{ id := 0 }, { id := 1 }, { id := 2 }] :=
  ((C3_cooperative_stop envStop10 1000 ((List.range 10).map (fun n => { id := n }))
      rfl (fun _ => rfl)).2.2.2 (fun i => rfl) (by decide)).trans (by decide)

/-! ### Claim C4 -/

/-- C4: a cycle whose fetch returns zero items logs the "did not get any
work" line at informational level, performs zero applier calls, and
returns `must_sleep = true`, for every value of `limit`. -/
theorem C4_empty_batch (env : Env) (limit : Int)
    (hfetch : env.get_cleaned_updated_collection_replicas
        ((env.live 0).2 - 1) (env.live 0).1 limit = Except.ok []) :
    run_once env limit =
      RunOnceResult.ok { fetch_args := ((env.live 0).2 - 1, (env.live 0).1, limit)
                         logged_no_work := true
                         applied := []
                         must_sleep := true } := by
  simp [run_once, hfetch]

/-- Witness for C4 at a concrete input (`limit = 7`). -/
theorem C4_witness :
    run_once envEmpty 7 =
      RunOnceResult.ok { fetch_args := (0, 0, 7)
                         logged_no_work := true
                         applied := []
                         must_sleep := true } :=
  C4_empty_batch envEmpty 7 rfl

/-! ### Claim C6 -/

/-- C6: no exception is caught inside `run_once`.  A fetch error `e`
terminates the cycle with `e` propagating and nothing applied; an update
error `e` at the `i`-th item of the batch (all earlier stop checks
clear, all earlier updates successful) terminates the cycle with the
same `e` propagating, exactly the first `i` items applied, and no retry
(the result records nothing further). -/
theorem C6_exception_propagation (env : Env) (limit : Int) :
    (∀ e, env.get_cleaned_updated_collection_replicas
        ((env.live 0).2 - 1) (env.live 0).1 limit = Except.error e →
      run_once env limit = RunOnceResult.raised e []) ∧
    (∀ (rs : List WorkItem) (i : Nat) (e : Exc) (hi : i < rs.length),
      env.get_cleaned_updated_collection_replicas
        ((env.live 0).2 - 1) (env.live 0).1 limit = Except.ok rs →
      (∀ j, j < i → env.graceful_stop_is_set j = false) →
      (∀ r, r ∈ rs.take i → env.update_collection_replica r = Except.ok ()) →
      env.graceful_stop_is_set i = false →
      env.update_collection_replica (rs.get ⟨i, hi⟩) = Except.error e →
      run_once env limit = RunOnceResult.raised e (rs.take i)) := by
  constructor
  · intro e he
    simp [run_once, he]
  · intro rs i e hi hfetch hstops hupds hstop hupd
    have hproc := process_replicas_raises env rs 0 i e hi
      (fun j hj => by simpa using hstops j hj)
      hupds (by simpa using hstop) hupd
    have hne : rs.isEmpty = false := by
      cases rs with
      | nil => exact absurd hi (Nat.not_lt_zero i)
      | cons a l => rfl
    simp [run_once, hfetch, hne, hproc]

/-- Witness for C6: three items, updating the second raises "boom" — the
cycle ends with "boom" propagating and only the first item applied. -/
theorem C6_witness :
    run_once envFail 1000 = RunOnceResult.raised { msg := "boom" } [{ id := 0 }] :=
  (C6_exception_propagation envFail 1000).2
    [{ id := 0 }, { id := 1 }, { id := 2 }] 1 { msg := "boom" } (by decide) rfl
    (fun j hj => rfl)
    (fun r hr => by
      have hr0 : r = { id := 0 } := by simpa using hr
      rw [hr0]
      rfl)
    rfl rfl

/-! ### Wait-loop lemmas for the Concurrency Driver -/

theorem join_wait_exit (alive : Nat → Nat → Bool) :
    ∀ (fuel t0 t : Nat), join_wait alive fuel t0 = some t →
      alive 0 t = false ∧ ∀ s, t0 ≤ s → s < t → alive 0 s = true := by
  intro fuel
  induction fuel with
  | zero => intro t0 t h; cases h
  | succ fuel ih =>
    intro t0 t h
    simp only [join_wait] at h
    by_cases ha : alive 0 t0
    · rw [if_pos ha] at h
      rcases ih (t0 + 1) t h with ⟨h1, h2⟩
      refine ⟨h1, fun s hs1 hs2 => ?_⟩
      rcases Nat.eq_or_lt_of_le hs1 with he | hlt
      · rw [← he]; exact ha
      · exact h2 s hlt hs2
    · rw [if_neg ha] at h
      have ht : t0 = t := by
        injection h
      subst ht
      rw [Bool.not_eq_true] at ha
      exact ⟨ha, fun s hs1 hs2 => absurd (lt_of_le_of_lt hs1 hs2) (lt_irrefl _)⟩

theorem join_wait_reads_only_first (alive alive2 : Nat → Nat → Bool)
    (h : ∀ u, alive 0 u = alive2 0 u) :
    ∀ (fuel t0 : Nat), join_wait alive fuel t0 = join_wait alive2 fuel t0 := by
  intro fuel
  induction fuel with
  | zero => intro t0; rfl
  | succ fuel ih => intro t0; simp only [join_wait, h t0, ih (t0 + 1)]

/-! ### Claim C5 -/

/-- C5: with a stale schema (`is_old_db()` true), `run` raises
`DatabaseException` for every argument combination: no daemon loop is
run synchronously, none is spawned, and — the loops being the only path
to the work source and the work applier — no fetch and no update
happens. -/
theorem C5_stale_schema (once : Bool) (threads : Nat) (sleep_time limit : Int) :
    run true once threads sleep_time limit =
      RunResult.raisedDatabaseException "Database was not updated, daemon won\'t start" ∧
    (∀ call, run true once threads sleep_time limit ≠ RunResult.syncLoop call) ∧
    (∀ tl, run true once threads sleep_time limit ≠ RunResult.spawnedAndWaiting tl) ∧
    (∀ tl, run true once threads sleep_time limit ≠ RunResult.spawnedThenIndexError tl) := by
  refine ⟨rfl, ?_, ?_, ?_⟩ <;> intro x h <;> simp [run] at h

/-! ### Claim C7 -/

/-- C7: `run(once=True)` executes exactly one daemon loop synchronously
in the calling thread (`collection_replica_update(once)`) and spawns no
thread; the `threads` argument has no effect on the result. -/
theorem C7_once_synchronous (threads threads2 : Nat) (sleep_time limit : Int) :
    run false true threads sleep_time limit =
      RunResult.syncLoop (collection_replica_update true) ∧
    (∀ tl, run false true threads sleep_time limit ≠ RunResult.spawnedAndWaiting tl) ∧
    run false true threads sleep_time limit = run false true threads2 sleep_time limit := by
  refine ⟨rfl, ?_, rfl⟩
  intro tl h
  simp [run] at h

/-! ### Claim C8 -/

/-- C8, corrected: `run(once=False, threads=2)` launches two loop
instances, but the wait loop's condition inspects only `thread_list[0]`.
With the first thread terminated before the first poll and the second
alive at every poll, the wait exits at poll 0 — `run` returns while a
launched loop instance is still alive, refuting "never returns while
any launched loop instance is still alive". -/
theorem C8_counterexample :
    run false false 2 10 1000 =
      RunResult.spawnedAndWaiting
        [collection_replica_update false 1000 10, collection_replica_update false 1000 10] ∧
    join_wait aliveFirstDead 5 0 = some 0 ∧
    aliveFirstDead 1 0 = true := by
  refine ⟨?_, rfl, rfl⟩
  rfl

/-- C8 (amended): `run(once=False, threads ≥ 1, ...)` launches exactly
`threads` daemon loop instances (each configured with the given `limit`
and `sleep_time`) and enters the bounded-poll join wait
(`while thread_list[0].is_alive(): join all with timeout 3.14`); the
wait exits at poll `t` exactly when the first instance is observed dead
at `t` after being observed alive at every earlier poll, and the exit
point depends only on the first instance's liveness — instances other
than the first may still be alive when `run` returns. -/
theorem C8_join_wait (threads : Nat) (h1 : 1 ≤ threads) (sleep_time limit : Int)
    (alive alive2 : Nat → Nat → Bool) (fuel t0 t : Nat) :
    run false false threads sleep_time limit =
      RunResult.spawnedAndWaiting
        ((List.range threads).map (fun _ => collection_replica_update false limit sleep_time)) ∧
    ((List.range threads).map
        (fun _ => collection_replica_update false limit sleep_time)).length = threads ∧
    (join_wait alive fuel t0 = some t →
      alive 0 t = false ∧ ∀ s, t0 ≤ s → s < t → alive 0 s = true) ∧
    ((∀ u, alive 0 u = alive2 0 u) →
      join_wait alive fuel t0 = join_wait alive2 fuel t0) := by
  refine ⟨?_, by simp, join_wait_exit alive fuel t0 t,
    fun h => join_wait_reads_only_first alive alive2 h fuel t0⟩
  have hne : ((List.range threads).map
      (fun _ => collection_replica_update false limit sleep_time)).isEmpty = false := by
    cases threads with
    | zero => omega
    | succ n =>
      rw [List.isEmpty_eq_false]
      simp
  simp [run, hne]
  omega

/-- Witness for the amended C8 at a concrete input: two threads, fuel 5,
the wait exiting at poll 0 with the first instance observed dead. -/
theorem C8_witness : aliveFirstDead 0 0 = false :=
  ((C8_join_wait 2 (by decide) 10 1000 aliveFirstDead aliveFirstDead 5 0 0).2.2.1 rfl).1

/-! ### Claim C9 -/

/-- C9: in once mode the single loop runs with the defaults
`limit = 1000` and `sleep_time = 10` — the `limit` and `sleep_time`
passed to `run` are silently dropped, because the once branch calls
`collection_replica_update(once)` with only the positional `once`. -/
theorem C9_once_uses_defaults (threads : Nat) (sleep_time limit : Int) :
    run false true threads sleep_time limit =
      RunResult.syncLoop { once := true
                           partition_wait_time := 1
                           sleep_time := 10
                           run_once_limit := 1000 } := rfl

/-! ### Claim C10 -/

/-- C10: `run(once=False, threads=0)` with a fresh schema builds an
empty thread list (zero daemon loops launched) and then raises
`IndexError` evaluating `thread_list[0].is_alive()` in the wait loop,
instead of returning cleanly. -/
theorem C10_zero_threads (sleep_time limit : Int) :
    run false false 0 sleep_time limit = RunResult.spawnedThenIndexError [] := rfl

end CollectionReplica
